import Mathlib

/-!
Shallow embedding of the period-hierarchy engine of `nholding/cso-book`
(Gregorian period generation, fiscal-year overlay, in-memory period store,
hierarchy / fiscal-coverage validation, range decomposition), together with
theorems settling the frozen claims about it.

Time is modelled as `Int` nanoseconds since the proleptic-Gregorian instant
0000-01-01T00:00:00Z, matching Go's `time.Time` UTC instants: the source only
ever builds instants of the form "first of month 00:00:00 UTC" (via
`time.Date(y, m, 1, 0, 0, 0, 0, time.UTC)` and `AddDate` month arithmetic)
and "first of month minus 1ns".
-/

namespace CsoBook

/-- Gregorian leap-year rule (Go `time` package semantics; `emod` agrees with
Go's `%` on the `== 0` tests used here). -/
def isLeap (y : Int) : Bool :=
  (y % 4 == 0 && !(y % 100 == 0)) || y % 400 == 0

/-- Days in February of year `y`. -/
def febDays (y : Int) : Int := if isLeap y then 29 else 28

/-- Days strictly before month `m` (1-based) inside year `y`
(cumulative month lengths Jan 31, Feb 28/29, Mar 31, Apr 30, May 31, Jun 30,
Jul 31, Aug 31, Sep 30, Oct 31, Nov 30; `m = 13` yields the full year). -/
def daysBeforeMonth (y : Int) (m : Nat) : Int :=
  (if 2 ≤ m then 31 else 0) + (if 3 ≤ m then febDays y else 0) +
  (if 4 ≤ m then 31 else 0) + (if 5 ≤ m then 30 else 0) +
  (if 6 ≤ m then 31 else 0) + (if 7 ≤ m then 30 else 0) +
  (if 8 ≤ m then 31 else 0) + (if 9 ≤ m then 31 else 0) +
  (if 10 ≤ m then 30 else 0) + (if 11 ≤ m then 31 else 0) +
  (if 12 ≤ m then 30 else 0) + (if 13 ≤ m then 31 else 0)

/-- Days from 0000-01-01 to `y`-01-01 in the proleptic Gregorian calendar
(`/` on `Int` is floor-like for the positive divisors used here). -/
def daysBeforeYear (y : Int) : Int :=
  365 * y + (y + 3) / 4 - (y + 99) / 100 + (y + 399) / 400

def nsPerDay : Int := 86400000000000

/-- Nanosecond instant of `y`-`m`-01T00:00:00Z for a month index `m ∈ [1, 12]`. -/
def monthStartNs (y : Int) (m : Nat) : Int :=
  (daysBeforeYear y + daysBeforeMonth y m) * nsPerDay

/-- Nanosecond instant of the first of month for an arbitrary (possibly
out-of-range) month index `m : Int`, normalising overflow into the year the
way Go's `time.Date` / `AddDate` do (e.g. month 13 of `y` is January of
`y + 1`). -/
def mkMonthStart (y m : Int) : Int :=
  monthStartNs (y + (m - 1) / 12) (((m - 1) % 12).toNat + 1)

/-- Uppercase three-letter month abbreviation, as produced by Go's
`strings.ToUpper(t.Format("2006-Jan"))` month part. -/
def monthAbbrev : Nat → String
  | 1 => "JAN" | 2 => "FEB" | 3 => "MAR" | 4 => "APR"
  | 5 => "MAY" | 6 => "JUN" | 7 => "JUL" | 8 => "AUG"
  | 9 => "SEP" | 10 => "OCT" | 11 => "NOV" | 12 => "DEC"
  | _ => "XXX"

/-- Full month name, as produced by Go's `t.Format("January 2006")` month part. -/
def monthFullName : Nat → String
  | 1 => "January" | 2 => "February" | 3 => "March" | 4 => "April"
  | 5 => "May" | 6 => "June" | 7 => "July" | 8 => "August"
  | 9 => "September" | 10 => "October" | 11 => "November" | 12 => "December"
  | _ => "Unknown"

/-- Year rendered like Go's `Format("2006")`: zero-padded to at least four
digits, with a sign for negative years. -/
def yearStr4 (y : Int) : String :=
  let s := toString y.natAbs
  let s := if s.length < 4 then String.mk (List.replicate (4 - s.length) '0') ++ s else s
  if y < 0 then "-" ++ s else s

/-- Granularity enum values from the source (`PeriodGranularity`). -/
def MonthlyPeriod : String := "MONTHLY"
def QuarterlyPeriod : String := "QUARTERLY"
def CalendarYearPeriod : String := "CALENDAR"

/-- Calendar enum values. The enum declaration itself is not among the source
files (only its users are); the values are fixed by the source's own error
examples, which render a Gregorian period as `(CAL)` and a fiscal one as
`(FY)`. Modelled from the spec: `Calendar`: enum {Gregorian, Fiscal}. -/
def CalendarGregorian : String := "CAL"
def CalendarFiscal : String := "FY"

/-- The `Period` value type (later-draft model with the `Calendar`
discriminator, which the service, repository and fiscal generator all use).
`AuditInfo` carries no claim-relevant data and is omitted.
Go's zero value for the `Calendar` string field is `""`. -/
structure Period where
  id : String
  name : String
  calendar : String
  granularity : String
  parentPeriodID : Option String
  childPeriodIDs : List String
  startDate : Int
  endDate : Int
deriving DecidableEq, Repr, Inhabited

/-- `PeriodRange` from the source. -/
structure PeriodRange where
  startPeriodID : String
  endPeriodID : String
deriving DecidableEq, Repr

/-- `GranularityRank`: MONTHLY 1 < QUARTERLY 2 < CALENDAR 3, anything else 99.
(The source spells the cases with granularity constants not declared under the
given files; their values are the `PeriodGranularity` strings above.) -/
def Period.granularityRank (p : Period) : Int :=
  if p.granularity == MonthlyPeriod then 1
  else if p.granularity == QuarterlyPeriod then 2
  else if p.granularity == CalendarYearPeriod then 3
  else 99

/-- The Year period built by `GeneratePeriods` for year `y`.
The source appends the year struct by value before filling its child list, and
the later `append`s to the local's `ChildPeriodIDs` never reach the stored
copy (its empty slice has capacity 0), so the emitted Year has no children.
No `Calendar` is assigned anywhere in `GeneratePeriods`: the field keeps Go's
zero value `""`. -/
def yearPeriodOf (y : Int) : Period :=
  { id := toString y
    name := toString y
    calendar := ""
    granularity := CalendarYearPeriod
    parentPeriodID := none
    childPeriodIDs := []
    startDate := mkMonthStart y 1
    endDate := mkMonthStart (y + 1) 1 - 1 }

/-- Quarter ID `"YYYY-Qn"` (`fmt.Sprintf("%d-Q%d", y, q)`). -/
def quarterID (y q : Int) : String := s!"{y}-Q{q}"

/-- Month ID: `strings.ToUpper(monthStart.Format("2006-Jan"))`, applied to the
(normalised) first-of-month date. -/
def monthID (y m : Int) : String :=
  let ny := y + (m - 1) / 12
  let nm := ((m - 1) % 12).toNat + 1
  yearStr4 ny ++ "-" ++ monthAbbrev nm

/-- Month name: `monthStart.Format("January 2006")`. -/
def monthNameOf (y m : Int) : String :=
  let ny := y + (m - 1) / 12
  let nm := ((m - 1) % 12).toNat + 1
  monthFullName nm ++ " " ++ yearStr4 ny

/-- The Month period built by `GeneratePeriods` for (1-based) month `m` of
year `y`, with parent quarter `q`. -/
def monthPeriodOf (y q m : Int) : Period :=
  { id := monthID y m
    name := monthNameOf y m
    calendar := ""
    granularity := MonthlyPeriod
    parentPeriodID := some (quarterID y q)
    childPeriodIDs := []
    startDate := mkMonthStart y m
    endDate := mkMonthStart y (m + 1) - 1 }

/-- The Quarter period built by `GeneratePeriods` for quarter `q` of year `y`
(the quarter is appended after its three months, so its child list is full). -/
def quarterPeriodOf (y q : Int) : Period :=
  { id := quarterID y q
    name := s!"Q{q} {y}"
    calendar := ""
    granularity := QuarterlyPeriod
    parentPeriodID := some (toString y)
    childPeriodIDs :=
      [monthID y (1 + (q - 1) * 3), monthID y (1 + (q - 1) * 3 + 1),
       monthID y (1 + (q - 1) * 3 + 2)]
    startDate := mkMonthStart y (1 + (q - 1) * 3)
    endDate := mkMonthStart y (1 + (q - 1) * 3 + 3) - 1 }

/-- The three months of quarter `q` followed by the quarter itself, in the
order `GeneratePeriods` appends them. -/
def quarterBlock (y q : Int) : List Period :=
  [monthPeriodOf y q (1 + (q - 1) * 3),
   monthPeriodOf y q (1 + (q - 1) * 3 + 1),
   monthPeriodOf y q (1 + (q - 1) * 3 + 2),
   quarterPeriodOf y q]

/-- All 17 periods `GeneratePeriods` emits for year `y`, in emission order:
the Year, then per quarter its three Months and then the Quarter. -/
def yearBlock (y : Int) : List Period :=
  yearPeriodOf y ::
    ((List.range 4).flatMap (fun i => quarterBlock y ((i : Int) + 1)))

/-- Ascending run of `n` consecutive integers starting at `s`
(the years the Go `for y := startYear; y <= endYear; y++` loop visits). -/
def intRange (s : Int) : Nat → List Int
  | 0 => []
  | n + 1 => s :: intRange (s + 1) n

/-- `GeneratePeriods(startYear, endYear)` (domain draft, the one the service
calls). Returns a plain list; there is no error channel. -/
def generatePeriods (startYear endYear : Int) : List Period :=
  if endYear < startYear then []
  else (intRange startYear (endYear - startYear + 1).toNat).flatMap yearBlock

/-- In-memory `PeriodStore`. `entries` models the `Periods` map; `NewPeriodStore`
and the service always key it by `Period.ID`, so lookup is "first entry whose
`id` matches". -/
structure PeriodStore where
  entries : List Period
  months : List Period
  quarters : List Period
  years : List Period
deriving DecidableEq, Repr

/-- `FindByID` (map lookup; `nil` becomes `none`). -/
def PeriodStore.findByID (ps : PeriodStore) (id : String) : Option Period :=
  ps.entries.find? (fun p => p.id == id)

/-- Insert a period into a sequence sorted by ascending `StartDate`. -/
def insertByStart (p : Period) : List Period → List Period
  | [] => [p]
  | q :: qs =>
    if p.startDate ≤ q.startDate then p :: q :: qs else q :: insertByStart p qs

/-- Sort by ascending `StartDate`. The source uses `sort.Slice` with
`StartDate.Before`; on distinct start dates (the only situations the claims
touch) the sorted sequence is unique, and this deterministic sort computes it. -/
def sortByStart (l : List Period) : List Period := l.foldr insertByStart []

/-- `NewPeriodStore`: bucket by granularity, then sort each bucket by start. -/
def newPeriodStore (periods : List Period) : PeriodStore :=
  { entries := periods
    months := sortByStart (periods.filter (fun p => p.granularity == MonthlyPeriod))
    quarters := sortByStart (periods.filter (fun p => p.granularity == QuarterlyPeriod))
    years := sortByStart (periods.filter (fun p => p.granularity == CalendarYearPeriod)) }

/-- `SortAll`. -/
def PeriodStore.sortAll (ps : PeriodStore) : PeriodStore :=
  { ps with
    months := sortByStart ps.months
    quarters := sortByStart ps.quarters
    years := sortByStart ps.years }

/-- `BreakDownTradePeriodRange` (domain draft with the reversed-range guard and
full-containment test `month.Start >= range.Start && month.End <= range.End`).
Unknown start or end ID yields the empty result. -/
def PeriodStore.breakDownTradePeriodRange (ps : PeriodStore) (pr : PeriodRange) :
    List String :=
  match ps.findByID pr.startPeriodID, ps.findByID pr.endPeriodID with
  | some startPeriod, some endPeriod =>
    if endPeriod.endDate < startPeriod.startDate then []
    else
      ps.months.filterMap (fun m =>
        if startPeriod.startDate ≤ m.startDate && m.endDate ≤ endPeriod.endDate
        then some m.id else none)
  | _, _ => []

/-- `FiscalCalendarConfig` (`StartMonth` is Go's `time.Month`, an integer). -/
structure FiscalCalendarConfig where
  startYear : Int
  startMonth : Int
deriving DecidableEq, Repr

/-- The fiscal Year period `GenerateFiscalYear` builds (its child list is
filled through a pointer, so the emitted value carries the quarter IDs). -/
def fiscalYearPeriodOf (cfg : FiscalCalendarConfig) (quarterIDs : List String) :
    Period :=
  let sy := cfg.startYear
  { id := s!"FY{sy}"
    name := s!"Fiscal Year {sy}"
    calendar := CalendarFiscal
    granularity := CalendarYearPeriod
    parentPeriodID := none
    childPeriodIDs := quarterIDs
    startDate := mkMonthStart cfg.startYear cfg.startMonth
    endDate := mkMonthStart (cfg.startYear + 1) cfg.startMonth - 1 }

/-- One fiscal quarter from its (three) constituent months. -/
def fiscalQuarterOf (cfg : FiscalCalendarConfig) (q : Nat) (qMonths : List Period) :
    Period :=
  let sy := cfg.startYear
  let qn := q + 1
  { id := s!"FY{sy}-Q{qn}"
    name := s!"FY{sy} Q{qn}"
    calendar := CalendarFiscal
    granularity := QuarterlyPeriod
    parentPeriodID := some s!"FY{sy}"
    childPeriodIDs := qMonths.map (fun m => m.id)
    startDate := (qMonths.headI).startDate
    endDate := (qMonths.getLastI).endDate }

/-- `GenerateFiscalYear(months, cfg)`. The Go parameter is `[]*Period`, a
mutable view of the caller's months, so the embedding threads that list
through explicitly and returns the post-call list as the first component;
the source only ever reads from it, never assigns to any field of its
elements. Second component is the `([]*Period, error)` return value. -/
def generateFiscalYear (months : List Period) (cfg : FiscalCalendarConfig) :
    List Period × Except String (List Period) :=
  let fyStart := mkMonthStart cfg.startYear cfg.startMonth
  let fyEnd := mkMonthStart (cfg.startYear + 1) cfg.startMonth - 1
  let fyMonths := months.filter (fun m =>
    m.calendar == CalendarGregorian && m.granularity == MonthlyPeriod &&
    fyStart ≤ m.startDate && m.endDate ≤ fyEnd)
  if fyMonths.length ≠ 12 then
    let sy := cfg.startYear
    let n := fyMonths.length
    (months, .error s!"Warning: FY{sy} expected 12 months, found {n} months\n")
  else
    let quarters := (List.range 4).filterMap (fun q =>
      let qMonths := (fyMonths.drop (q * 3)).take 3
      if qMonths.isEmpty then none else some (fiscalQuarterOf cfg q qMonths))
    (months, .ok (fiscalYearPeriodOf cfg (quarters.map (fun p => p.id)) :: quarters))

/-- The `([]*Period, error)` result of `GenerateFiscalYear` alone. -/
def generateFiscalYearRes (months : List Period) (cfg : FiscalCalendarConfig) :
    Except String (List Period) :=
  (generateFiscalYear months cfg).2

/-- The violation values produced by the validators, one constructor per
`fmt.Errorf` call site, carrying the interpolated identifiers (the rendered
message text is irrelevant to the claims). -/
inductive Violation
  | storeNotInitialised
  | monthInvalidCalendar (id cal : String)
  | monthMissingParent (id parentId : String)
  | monthNonGregorianParent (id parentId : String)
  | monthBadParentGranularity (id parentGran : String)
  | monthNotContained (id parentId : String)
  | noParentNotYear (id gran : String)
  | missingParent (id parentId : String)
  | calendarMismatch (id cal parentId parentCal : String)
  | selfReference (id : String)
  | granularityOrder (id gran parentId parentGran : String)
  | startsBeforeParent (id parentId : String)
  | endsAfterParent (id parentId : String)
  | fiscalMonthCount (fyId : String) (found : Nat)
  | fiscalGapOrOverlap (fyId prevId currId : String)
  | fiscalStartMisaligned (fyId : String) (start : Int)
  | fiscalEndMisaligned (fyId : String) (stop : Int)
deriving DecidableEq, Repr

/-- The period an emitted violation is about (the child period for hierarchy
violations, the fiscal year for coverage violations). -/
def Violation.subject : Violation → String
  | .storeNotInitialised => ""
  | .monthInvalidCalendar i _ => i
  | .monthMissingParent i _ => i
  | .monthNonGregorianParent i _ => i
  | .monthBadParentGranularity i _ => i
  | .monthNotContained i _ => i
  | .noParentNotYear i _ => i
  | .missingParent i _ => i
  | .calendarMismatch i _ _ _ => i
  | .selfReference i => i
  | .granularityOrder i _ _ _ => i
  | .startsBeforeParent i _ => i
  | .endsAfterParent i _ => i
  | .fiscalMonthCount i _ => i
  | .fiscalGapOrOverlap i _ _ => i
  | .fiscalStartMisaligned i _ => i
  | .fiscalEndMisaligned i _ => i

/-- `ValidateHierarchy`, month branch: the month's own calendar must be
Gregorian; a declared parent must exist, be Gregorian, be coarser, and contain
the month (a missing parent skips the dependent checks). -/
def checkMonth (st : PeriodStore) (p : Period) : List Violation :=
  (if p.calendar ≠ CalendarGregorian then [.monthInvalidCalendar p.id p.calendar] else []) ++
  (match p.parentPeriodID with
   | none => []
   | some pid =>
     match st.findByID pid with
     | none => [.monthMissingParent p.id pid]
     | some parent =>
       (if parent.calendar ≠ CalendarGregorian then [.monthNonGregorianParent p.id parent.id] else []) ++
       (if parent.granularityRank ≤ p.granularityRank then [.monthBadParentGranularity p.id parent.granularity] else []) ++
       (if p.startDate < parent.startDate || parent.endDate < p.endDate then [.monthNotContained p.id parent.id] else []))

/-- `ValidateHierarchy`, non-Year non-Month branch (quarters): the parent is
mandatory and must exist; a calendar mismatch is reported and skips rules 3-5
(`continue` in the source); otherwise self-reference, granularity order and
date containment are each checked independently. -/
def checkQuarter (st : PeriodStore) (p : Period) : List Violation :=
  match p.parentPeriodID with
  | none => [.noParentNotYear p.id p.granularity]
  | some pid =>
    match st.findByID pid with
    | none => [.missingParent p.id pid]
    | some parent =>
      if parent.calendar ≠ p.calendar then
        [.calendarMismatch p.id p.calendar parent.id parent.calendar]
      else
        (if parent.id == p.id then [.selfReference p.id] else []) ++
        (if parent.granularityRank ≤ p.granularityRank then
          [.granularityOrder p.id p.granularity parent.id parent.granularity] else []) ++
        (if p.startDate < parent.startDate then [.startsBeforeParent p.id parent.id] else []) ++
        (if parent.endDate < p.endDate then [.endsAfterParent p.id parent.id] else [])

/-- Dispatch of `ValidateHierarchy` on one period: Years are roots and are
skipped entirely. -/
def checkPeriod (st : PeriodStore) (p : Period) : List Violation :=
  if p.granularity == CalendarYearPeriod then []
  else if p.granularity == MonthlyPeriod then checkMonth st p
  else checkQuarter st p

/-- `ValidateHierarchy` over an initialised store: Years, then Quarters, then
Months. -/
def validateHierarchy (st : PeriodStore) : List Violation :=
  (st.years ++ st.quarters ++ st.months).flatMap (checkPeriod st)

/-- The Gregorian months selected for a fiscal year by date containment
(`month.Start >= fy.Start && month.End <= fy.End`, over the store's Months
bucket). -/
def fyMonthsSel (st : PeriodStore) (fy : Period) : List Period :=
  st.months.filter (fun m => fy.startDate ≤ m.startDate && m.endDate ≤ fy.endDate)

/-- Rule 2 of `ValidateFiscalCoverage`: each month must start exactly 1ns
after the previous one ends. -/
def gapViolations (fy : Period) : List Period → List Violation
  | p :: q :: rest =>
    (if q.startDate ≠ p.endDate + 1 then [.fiscalGapOrOverlap fy.id p.id q.id] else []) ++
    gapViolations fy (q :: rest)
  | _ => []

/-- Rule 3 of `ValidateFiscalCoverage`: boundary alignment of the first and
last selected month against the fiscal year (skipped on an empty selection). -/
def boundaryViolations (fy : Period) (sorted : List Period) : List Violation :=
  match sorted with
  | [] => []
  | first :: _ =>
    (if first.startDate ≠ fy.startDate then [.fiscalStartMisaligned fy.id first.startDate] else []) ++
    (match sorted.getLast? with
     | some last => if last.endDate ≠ fy.endDate then [.fiscalEndMisaligned fy.id last.endDate] else []
     | none => [])

/-- All three coverage rules for one fiscal year, applied cumulatively. -/
def coverageForFY (st : PeriodStore) (fy : Period) : List Violation :=
  let months := fyMonthsSel st fy
  (if months.length ≠ 12 then [.fiscalMonthCount fy.id months.length] else []) ++
  gapViolations fy (sortByStart months) ++
  boundaryViolations fy (sortByStart months)

/-- The fiscal Year periods of the store (`Calendar == FY && Granularity == YEAR`). -/
def fiscalYearsOf (st : PeriodStore) : List Period :=
  st.years.filter (fun y => y.calendar == CalendarFiscal && y.granularity == CalendarYearPeriod)

/-- `ValidateFiscalCoverage` over an initialised store (an empty fiscal-year
list yields no violations). -/
def validateFiscalCoverage (st : PeriodStore) : List Violation :=
  (fiscalYearsOf st).flatMap (coverageForFY st)

/-- The service's store field (`*domain.PeriodStore`, `nil` before
`InitializePeriods` runs). -/
def ServiceStore := Option PeriodStore

/-- `PeriodService.ValidateHierarchy`: guard clause on the uninitialised
store, then the traversal. -/
def serviceValidateHierarchy (store : Option PeriodStore) : List Violation :=
  match store with
  | none => [.storeNotInitialised]
  | some st => validateHierarchy st

/-- `PeriodService.ValidateFiscalCoverage`: same guard, then the coverage
rules. -/
def serviceValidateFiscalCoverage (store : Option PeriodStore) : List Violation :=
  match store with
  | none => [.storeNotInitialised]
  | some st => validateFiscalCoverage st

/-- `PeriodService.BreakDownTradeRange`: `nil` store yields the empty result,
otherwise the domain decomposition runs against the in-memory store. -/
def serviceBreakDownTradeRange (store : Option PeriodStore) (pr : PeriodRange) :
    List String :=
  match store with
  | none => []
  | some st => st.breakDownTradePeriodRange pr

/-- `Period.Validate()` as written: the empty-ID branch constructs an error
value but lacks a `return`, so the constructed error is discarded and an
empty ID alone never makes `Validate` fail. -/
def Period.validate (p : Period) : Option String :=
  if p.name = "" then some "period name cannot be empty"
  else if ¬ (p.granularity = CalendarYearPeriod ∨ p.granularity = QuarterlyPeriod ∨
             p.granularity = MonthlyPeriod) then
    some "invalid granularity, must be CALENDAR, QUARTERLY, or MONTHLY"
  else if ¬ (p.startDate < p.endDate) then some "start date must be before end date"
  else none

/-- Add a fiscal period to the store the way `InitializePeriods` does:
map assignment plus append to the Years or Quarters bucket only. -/
def insertFiscalPeriod (st : PeriodStore) (p : Period) : PeriodStore :=
  let entries :=
    if st.entries.any (fun q => q.id == p.id)
    then st.entries.map (fun q => if q.id == p.id then p else q)
    else st.entries ++ [p]
  { entries := entries
    months := st.months
    quarters := if p.granularity == QuarterlyPeriod then st.quarters ++ [p] else st.quarters
    years := if p.granularity == CalendarYearPeriod then st.years ++ [p] else st.years }

/-- One iteration of the fiscal-config loop in `InitializePeriods`: skip when
FY and FY-Q1 already exist, else generate, persist (validation pass of
`SavePeriods`) and merge into the store. -/
def applyFiscalConfig (st : PeriodStore) (cfg : FiscalCalendarConfig) :
    Except String PeriodStore :=
  let sy := cfg.startYear
  let fyID := s!"FY{sy}"
  if (st.findByID fyID).isSome && (st.findByID (fyID ++ "-Q1")).isSome then .ok st
  else
    match generateFiscalYearRes st.months cfg with
    | .error e => .error s!"failed to generate fiscal year FY{sy}: {e}"
    | .ok fiscalPeriods =>
      if fiscalPeriods.any (fun p => (p.validate).isSome) then
        .error s!"failed to persist fiscal year FY{sy}"
      else .ok (fiscalPeriods.foldl insertFiscalPeriod st)

/-- `InitializePeriods(ctx, startYear, endYear, fiscalConfigs)`: the
orchestrating startup sequence, with the repository idealised as the
`persisted` list (`GetAllPeriods` returns it; `SavePeriods` fails exactly when
some period fails `Validate`, the repository's own precondition). -/
def initializePeriods (persisted : List Period) (startYear endYear : Int)
    (fiscalConfigs : List FiscalCalendarConfig) : Except String PeriodStore :=
  if endYear < startYear then
    .error s!"invalid period range: startYear {startYear} is after endYear {endYear}"
  else
    let periods := if persisted.isEmpty then generatePeriods startYear endYear else persisted
    if persisted.isEmpty && periods.any (fun p => (p.validate).isSome) then
      .error "failed to persist generated calendar periods"
    else
      match fiscalConfigs.foldlM applyFiscalConfig (newPeriodStore periods) with
      | .error e => .error e
      | .ok st =>
        let st := st.sortAll
        if (validateHierarchy st).length ≠ 0 then .error "period hierarchy validation failed"
        else if (validateFiscalCoverage st).length ≠ 0 then .error "fiscal calendar validation failed"
        else .ok st

/-! ## Theorems settling the claims -/

/-- A concrete period whose ID is empty but whose name, granularity and date
range are all valid. -/
def emptyIdPeriod : Period :=
  { id := ""
    name := "January 2026"
    calendar := CalendarGregorian
    granularity := MonthlyPeriod
    parentPeriodID := none
    childPeriodIDs := []
    startDate := mkMonthStart 2026 1
    endDate := mkMonthStart 2026 2 - 1 }

/-- C9: the claim says `Period.Validate()` returns nil iff the period has a
non-empty ID, non-empty Name, a known granularity and Start < End, and in
particular that an empty ID yields an error. The code contradicts this: the
empty-ID branch builds the error but never returns it, so `Validate` returns
nil on a period whose ID is the empty string (and whose other fields are
valid), breaking both the claimed iff and its "in particular" consequence. -/
theorem C9_validate_accepts_empty_id :
    emptyIdPeriod.id = "" ∧ emptyIdPeriod.validate = none := by
  constructor
  · rfl
  · rfl

/-- C5: the claim says every period generated by `GeneratePeriods` is stamped
`Calendar = Gregorian`. The code never assigns the `Calendar` field, so every
generated period carries the zero value `""`, which is not `Gregorian`; shown
here for `GeneratePeriods(2026, 2026)` (all 17 periods, including
`"2026-JAN"`). -/
theorem C5_generated_periods_not_stamped_gregorian :
    (generatePeriods 2026 2026).length = 17 ∧
    (generatePeriods 2026 2026).all (fun p => p.calendar == "") = true ∧
    ((generatePeriods 2026 2026).find? (fun p => p.id == "2026-JAN")).map
      Period.calendar = some "" ∧
    ("" : String) ≠ CalendarGregorian := by
  refine ⟨by decide, by decide, by decide, by decide⟩

/-- C10: with an uninitialised (nil) store, `ValidateHierarchy` and
`ValidateFiscalCoverage` each return exactly the single
"period store not initialised" error, and `BreakDownTradeRange` returns the
empty result for every `PeriodRange`; all three are pure reads that leave the
service state untouched. -/
theorem C10_nil_store_degrades_gracefully :
    serviceValidateHierarchy none = [.storeNotInitialised] ∧
    serviceValidateFiscalCoverage none = [.storeNotInitialised] ∧
    ∀ pr : PeriodRange, serviceBreakDownTradeRange none pr = [] := by
  refine ⟨rfl, rfl, fun pr => rfl⟩

/-- C2: over the store built from `GeneratePeriods(2026, 2027)`, decomposing
`2026-Q1 → 2026-Q2` yields exactly the six months January through June 2026 in
chronological order; and over any store, a range whose start or end ID is not
present decomposes to the empty result. -/
theorem C2_breakdown_q1_q2_and_unknown_ids :
    (newPeriodStore (generatePeriods 2026 2027)).breakDownTradePeriodRange
      { startPeriodID := "2026-Q1", endPeriodID := "2026-Q2" } =
      ["2026-JAN", "2026-FEB", "2026-MAR", "2026-APR", "2026-MAY", "2026-JUN"] ∧
    ∀ (st : PeriodStore) (pr : PeriodRange),
      st.findByID pr.startPeriodID = none ∨ st.findByID pr.endPeriodID = none →
      st.breakDownTradePeriodRange pr = [] := by
  constructor
  · decide
  · intro st pr h
    unfold PeriodStore.breakDownTradePeriodRange
    rcases h with h | h
    · rw [h]
    · rw [h]
      cases st.findByID pr.startPeriodID <;> rfl

/-- Witness for C2: the universally quantified part applied to the concrete
2026-2027 store and a range whose start ID is unknown. -/
theorem C2_breakdown_witness :
    (newPeriodStore (generatePeriods 2026 2027)).breakDownTradePeriodRange
      { startPeriodID := "nope", endPeriodID := "2026-Q2" } = [] :=
  C2_breakdown_q1_q2_and_unknown_ids.2
    (newPeriodStore (generatePeriods 2026 2027))
    { startPeriodID := "nope", endPeriodID := "2026-Q2" }
    (Or.inl (by decide))

/-- The Gregorian months for the years `[sy, ey]`: the months of
`GeneratePeriods(sy, ey)` carrying their proper `Calendar = Gregorian` stamp
(the claimed input of the fiscal overlay). -/
def gregorianMonthsFor (sy ey : Int) : List Period :=
  (generatePeriods sy ey).filterMap (fun p =>
    if p.granularity == MonthlyPeriod then some { p with calendar := CalendarGregorian }
    else none)

/-- C3: on the Gregorian months of 2026-2027 with
`cfg = {StartYear: 2026, StartMonth: April}`, `GenerateFiscalYear` succeeds
and returns the fiscal year FY2026 spanning 2026-04-01T00:00:00Z through
2027-03-31T23:59:59.999999999Z first, followed by its four fiscal quarters in
chronological order, with `FY2026-Q1.ChildPeriodIDs =
["2026-APR", "2026-MAY", "2026-JUN"]`. -/
theorem C3_fiscal_year_2026_overlay :
    (generateFiscalYearRes (gregorianMonthsFor 2026 2027)
        { startYear := 2026, startMonth := 4 }).map (List.map Period.id) =
      .ok ["FY2026", "FY2026-Q1", "FY2026-Q2", "FY2026-Q3", "FY2026-Q4"] ∧
    (generateFiscalYearRes (gregorianMonthsFor 2026 2027)
        { startYear := 2026, startMonth := 4 }).map
        (List.map (fun p => (p.startDate, p.endDate))) =
      .ok [(mkMonthStart 2026 4, mkMonthStart 2027 4 - 1),
           (mkMonthStart 2026 4, mkMonthStart 2026 7 - 1),
           (mkMonthStart 2026 7, mkMonthStart 2026 10 - 1),
           (mkMonthStart 2026 10, mkMonthStart 2027 1 - 1),
           (mkMonthStart 2027 1, mkMonthStart 2027 4 - 1)] ∧
    (generateFiscalYearRes (gregorianMonthsFor 2026 2027)
        { startYear := 2026, startMonth := 4 }).map (List.map Period.granularity) =
      .ok [CalendarYearPeriod, QuarterlyPeriod, QuarterlyPeriod, QuarterlyPeriod,
           QuarterlyPeriod] ∧
    (generateFiscalYearRes (gregorianMonthsFor 2026 2027)
        { startYear := 2026, startMonth := 4 }).map (List.map Period.calendar) =
      .ok [CalendarFiscal, CalendarFiscal, CalendarFiscal, CalendarFiscal,
           CalendarFiscal] ∧
    (generateFiscalYearRes (gregorianMonthsFor 2026 2027)
        { startYear := 2026, startMonth := 4 }).map (List.map Period.childPeriodIDs) =
      .ok [["FY2026-Q1", "FY2026-Q2", "FY2026-Q3", "FY2026-Q4"],
           ["2026-APR", "2026-MAY", "2026-JUN"],
           ["2026-JUL", "2026-AUG", "2026-SEP"],
           ["2026-OCT", "2026-NOV", "2026-DEC"],
           ["2027-JAN", "2027-FEB", "2027-MAR"]] ∧
    mkMonthStart 2026 4 < mkMonthStart 2026 7 ∧
    mkMonthStart 2026 7 < mkMonthStart 2026 10 ∧
    mkMonthStart 2026 10 < mkMonthStart 2027 1 ∧
    mkMonthStart 2027 1 < mkMonthStart 2027 4 := by
  refine ⟨by rfl, by rfl, by rfl, by rfl, by rfl, by decide, by decide,
    by decide, by decide⟩

/-- C6 counterexample: `GeneratePeriods(2027, 2026)` (startYear > endYear)
does not fail — its return type has no error channel at all — it returns the
ordinary empty sequence. -/
theorem C6_counterexample_generate_returns_empty :
    generatePeriods 2027 2026 = [] := by decide

/-- C6 amended: for startYear > endYear, `GeneratePeriods` itself returns the
empty sequence and cannot fail (it has no error channel); the InvalidRange
rejection is performed by the caller `InitializePeriods`, whose STEP-0 guard
fails with the "invalid period range" error before any period is generated,
persisted or validated, for every repository content and fiscal
configuration. -/
theorem C6_invalid_range_guard (persisted : List Period) (startYear endYear : Int)
    (fiscalConfigs : List FiscalCalendarConfig) (h : endYear < startYear) :
    generatePeriods startYear endYear = [] ∧
    initializePeriods persisted startYear endYear fiscalConfigs =
      .error s!"invalid period range: startYear {startYear} is after endYear {endYear}" := by
  constructor
  · unfold generatePeriods
    rw [if_pos h]
  · unfold initializePeriods
    rw [if_pos h]

/-- Witness for C6 amended: concrete instantiation at
`startYear = 2027 > endYear = 2026`. -/
theorem C6_invalid_range_guard_witness :
    generatePeriods 2027 2026 = [] ∧
    initializePeriods [] 2027 2026 [] =
      .error "invalid period range: startYear 2027 is after endYear 2026" :=
  C6_invalid_range_guard [] 2027 2026 [] (by decide)

/-- C4: `GenerateFiscalYear` never modifies the caller's month list — the
post-call list (first component of the explicit-state embedding, which mirrors
every write the Go body could make through the `[]*Period` argument) is the
input list unchanged, for every input and configuration; and every period it
does return is a newly created Fiscal Year or Fiscal Quarter (never a month),
so months are referenced by ID only and are never reparented. -/
theorem C4_fiscal_overlay_frame (months : List Period) (cfg : FiscalCalendarConfig) :
    (generateFiscalYear months cfg).1 = months ∧
    ((generateFiscalYear months cfg).2.toOption.getD []).all
      (fun p => (p.granularity == CalendarYearPeriod || p.granularity == QuarterlyPeriod)
        && p.calendar == CalendarFiscal) = true := by
  rw [generateFiscalYear]
  split
  · exact ⟨rfl, rfl⟩
  · refine ⟨rfl, ?_⟩
    simp only [Except.toOption, Option.getD, List.all_eq_true]
    intro p hp
    rcases List.mem_cons.mp hp with rfl | hp
    · rfl
    · rcases List.mem_filterMap.mp hp with ⟨q, _, hpq⟩
      split at hpq
      · exact absurd hpq (by simp)
      · cases hpq
        rfl

/-! ### Helper lemmas about the validators -/

theorem mem_ite_singleton {c : Prop} [Decidable c] {w v : Violation}
    (h : v ∈ (if c then [w] else [])) : v = w := by
  split at h
  · simpa using h
  · cases h

theorem gapViolations_shape (fy : Period) :
    ∀ (l : List Period), ∀ v ∈ gapViolations fy l,
      ∃ a b, v = .fiscalGapOrOverlap fy.id a b
  | [] => by intro v hv; cases hv
  | [p] => by intro v hv; cases hv
  | p :: q :: rest => by
    intro v hv
    rw [gapViolations] at hv
    rcases List.mem_append.mp hv with hv | hv
    · exact ⟨p.id, q.id, mem_ite_singleton hv⟩
    · exact gapViolations_shape fy (q :: rest) v hv

theorem boundaryViolations_shape (fy : Period) (l : List Period) :
    ∀ v ∈ boundaryViolations fy l,
      (∃ s, v = .fiscalStartMisaligned fy.id s) ∨
      (∃ e, v = .fiscalEndMisaligned fy.id e) := by
  intro v hv
  unfold boundaryViolations at hv
  rcases l with _ | ⟨first, rest⟩
  · cases hv
  · rcases List.mem_append.mp hv with hv | hv
    · exact Or.inl ⟨first.startDate, mem_ite_singleton hv⟩
    · rcases h : (first :: rest).getLast? with _ | last <;> rw [h] at hv
      · cases hv
      · exact Or.inr ⟨last.endDate, mem_ite_singleton hv⟩

/-- Every violation emitted by the coverage rules for fiscal year `g` is about
`g`. -/
theorem coverageForFY_subject (st : PeriodStore) (g : Period) :
    ∀ v ∈ coverageForFY st g, v.subject = g.id := by
  intro v hv
  unfold coverageForFY at hv
  rcases List.mem_append.mp hv with hv | hv
  · rcases List.mem_append.mp hv with hv | hv
    · rw [mem_ite_singleton hv]; rfl
    · rcases gapViolations_shape g _ v hv with ⟨a, b, rfl⟩; rfl
  · rcases boundaryViolations_shape g _ v hv with ⟨s, rfl⟩ | ⟨e, rfl⟩ <;> rfl

theorem countP_flatMap_zero {α β : Type} (f : α → List β) (pr : β → Bool) :
    ∀ (L : List α), (∀ b ∈ L, (f b).countP pr = 0) → (L.flatMap f).countP pr = 0
  | [] => by intro _; rfl
  | x :: L => by
    intro h
    rw [List.flatMap_cons, List.countP_append,
      h x (List.mem_cons_self x L), countP_flatMap_zero f pr L
        (fun b hb => h b (List.mem_cons_of_mem x hb))]

/-- Counting over a `flatMap` when exactly one element of the list can
contribute. -/
theorem countP_flatMap_single {α β : Type} (f : α → List β) (pr : β → Bool)
    (a : α) : ∀ (L : List α), a ∈ L → L.Nodup →
      (∀ b ∈ L, b ≠ a → (f b).countP pr = 0) →
      (L.flatMap f).countP pr = (f a).countP pr
  | [], ha, _, _ => by cases ha
  | x :: L, ha, hnd, hz => by
    rw [List.flatMap_cons, List.countP_append]
    rcases List.mem_cons.mp ha with rfl | ha'
    · rw [countP_flatMap_zero f pr L
        (fun b hb => hz b (List.mem_cons_of_mem a hb)
          (fun hba => (List.nodup_cons.mp hnd).1 (hba ▸ hb)))]
      omega
    · have hxa : x ≠ a := by
        rintro rfl
        exact (List.nodup_cons.mp hnd).1 ha'
      rw [hz x (List.mem_cons_self x L) hxa,
        countP_flatMap_single f pr a L ha' (List.nodup_cons.mp hnd).2
          (fun b hb hba => hz b (List.mem_cons_of_mem x hb) hba)]
      omega

/-- C8: for every store containing a fiscal Year for which exactly 11
(Gregorian) months satisfy the date-containment selection,
`ValidateFiscalCoverage` reports exactly one "expected 12, found 11"
month-count violation for that fiscal year, and every violation the
contiguity (gap/overlap) and boundary-alignment rules produce for that year is
still reported alongside it — the rules are applied cumulatively, not
short-circuited. -/
theorem C8_fiscal_coverage_eleven_months (st : PeriodStore) (fy : Period)
    (hfy : fy ∈ st.years) (hcal : fy.calendar = CalendarFiscal)
    (hgr : fy.granularity = CalendarYearPeriod)
    (hnd : (st.years.map Period.id).Nodup)
    (hGreg : ∀ m ∈ st.months, m.calendar = CalendarGregorian)
    (hcount : (fyMonthsSel st fy).length = 11) :
    (validateFiscalCoverage st).countP
        (fun v => v == Violation.fiscalMonthCount fy.id 11) = 1 ∧
    ∀ v, (v ∈ gapViolations fy (sortByStart (fyMonthsSel st fy)) ∨
          v ∈ boundaryViolations fy (sortByStart (fyMonthsSel st fy))) →
      v ∈ validateFiscalCoverage st := by
  have hfy' : fy ∈ fiscalYearsOf st := by
    unfold fiscalYearsOf
    exact List.mem_filter.mpr ⟨hfy, by rw [hcal, hgr]; rfl⟩
  have hndF : (fiscalYearsOf st).Nodup :=
    ((List.Nodup.of_map Period.id hnd).filter _)
  have hinj : ∀ g ∈ fiscalYearsOf st, g ≠ fy → g.id ≠ fy.id := by
    intro g hg hne
    have hg' : g ∈ st.years := (List.mem_filter.mp hg).1
    exact fun hid => hne (List.inj_on_of_nodup_map hnd hg' hfy hid)
  constructor
  · rw [validateFiscalCoverage,
      countP_flatMap_single (coverageForFY st)
        (fun v => v == Violation.fiscalMonthCount fy.id 11) fy
        (fiscalYearsOf st) hfy' hndF ?_]
    · unfold coverageForFY
      rw [List.countP_append, List.countP_append]
      have h1 : (if (fyMonthsSel st fy).length ≠ 12 then
          [Violation.fiscalMonthCount fy.id (fyMonthsSel st fy).length]
          else []).countP (fun v => v == Violation.fiscalMonthCount fy.id 11) = 1 := by
        rw [if_pos (by omega), hcount]
        simp [List.countP_cons]
      have h2 : (gapViolations fy (sortByStart (fyMonthsSel st fy))).countP
          (fun v => v == Violation.fiscalMonthCount fy.id 11) = 0 := by
        apply List.countP_eq_zero.mpr
        intro v hv
        rcases gapViolations_shape fy _ v hv with ⟨a, b, rfl⟩
        simp
      have h3 : (boundaryViolations fy (sortByStart (fyMonthsSel st fy))).countP
          (fun v => v == Violation.fiscalMonthCount fy.id 11) = 0 := by
        apply List.countP_eq_zero.mpr
        intro v hv
        rcases boundaryViolations_shape fy _ v hv with ⟨s, rfl⟩ | ⟨e, rfl⟩ <;> simp
      omega
    · intro g hg hne
      apply List.countP_eq_zero.mpr
      intro v hv hveq
      have hsub : v.subject = g.id := coverageForFY_subject st g v hv
      have : v = Violation.fiscalMonthCount fy.id 11 := by
        simpa using hveq
      rw [this] at hsub
      exact hinj g hg hne hsub.symm
  · intro v hv
    rw [validateFiscalCoverage]
    apply List.mem_flatMap.mpr
    refine ⟨fy, hfy', ?_⟩
    unfold coverageForFY
    rcases hv with hv | hv
    · exact List.mem_append.mpr (Or.inl (List.mem_append.mpr (Or.inr hv)))
    · exact List.mem_append.mpr (Or.inr hv)

/-- A fiscal-year overlay period for FY2026 (April 2026 start), used as a
concrete witness input. -/
def fy2026Overlay : Period :=
  { id := "FY2026"
    name := "Fiscal Year 2026"
    calendar := CalendarFiscal
    granularity := CalendarYearPeriod
    parentPeriodID := none
    childPeriodIDs := []
    startDate := mkMonthStart 2026 4
    endDate := mkMonthStart 2027 4 - 1 }

/-- A store whose Months bucket holds the Gregorian months of 2026-2027 minus
March 2027, so FY2026 selects only 11 months. -/
def elevenMonthStore : PeriodStore :=
  let ms := (gregorianMonthsFor 2026 2027).filter (fun m => m.id ≠ "2027-MAR")
  { entries := fy2026Overlay :: ms
    months := ms
    quarters := []
    years := [fy2026Overlay] }

/-- Witness for C8: the 11-month FY2026 store yields exactly one
"expected 12, found 11" violation for FY2026. -/
theorem C8_fiscal_coverage_witness :
    (validateFiscalCoverage elevenMonthStore).countP
      (fun v => v == Violation.fiscalMonthCount "FY2026" 11) = 1 :=
  (C8_fiscal_coverage_eleven_months elevenMonthStore fy2026Overlay
    (by decide) (by decide) (by decide) (by decide) (by decide) (by decide)).1

/-! ### Hierarchy-validator lemmas -/

/-- The calendar-isolation violations about period `i`: a quarter-level
calendar mismatch with the parent, a month with a non-Gregorian parent, or a
month that is itself not Gregorian. -/
def isCalendarIsolationViolation (i : String) : Violation → Bool
  | .calendarMismatch c _ _ _ => c == i
  | .monthNonGregorianParent c _ => c == i
  | .monthInvalidCalendar c _ => c == i
  | _ => false

/-- Any violation whose subject is period `i`. -/
def namesSubject (i : String) (v : Violation) : Bool := v.subject == i

theorem isCalendarIsolationViolation_subject {i : String} {v : Violation}
    (h : isCalendarIsolationViolation i v = true) : v.subject = i := by
  cases v <;> simp [isCalendarIsolationViolation] at h <;>
    simp [Violation.subject, h]

theorem countP_if_singleton (c : Prop) [Decidable c] (w : Violation)
    (pr : Violation → Bool) :
    (if c then [w] else []).countP pr = if c ∧ pr w then 1 else 0 := by
  by_cases hc : c <;> by_cases hw : pr w = true <;>
    simp [hc, hw, List.countP_cons, List.countP_nil]

/-- Every violation `checkMonth` emits is about the month itself. -/
theorem checkMonth_subject (st : PeriodStore) (p : Period) :
    ∀ v ∈ checkMonth st p, v.subject = p.id := by
  intro v hv
  unfold checkMonth at hv
  rcases List.mem_append.mp hv with hv | hv
  · rw [mem_ite_singleton hv]; rfl
  · rcases h1 : p.parentPeriodID with _ | pid <;> rw [h1] at hv <;> dsimp only at hv
    · cases hv
    · rcases h2 : st.findByID pid with _ | parent <;> rw [h2] at hv <;> dsimp only at hv
      · rw [List.mem_singleton.mp hv]; rfl
      · rcases List.mem_append.mp hv with hv | hv
        · rcases List.mem_append.mp hv with hv | hv
          · rw [mem_ite_singleton hv]; rfl
          · rw [mem_ite_singleton hv]; rfl
        · rw [mem_ite_singleton hv]; rfl

/-- Every violation `checkQuarter` emits is about the period itself. -/
theorem checkQuarter_subject (st : PeriodStore) (p : Period) :
    ∀ v ∈ checkQuarter st p, v.subject = p.id := by
  intro v hv
  unfold checkQuarter at hv
  rcases h1 : p.parentPeriodID with _ | pid <;> rw [h1] at hv <;> dsimp only at hv
  · rw [List.mem_singleton.mp hv]; rfl
  · rcases h2 : st.findByID pid with _ | parent <;> rw [h2] at hv <;> dsimp only at hv
    · rw [List.mem_singleton.mp hv]; rfl
    · split at hv
      · rw [List.mem_singleton.mp hv]; rfl
      · rcases List.mem_append.mp hv with hv | hv
        · rcases List.mem_append.mp hv with hv | hv
          · rcases List.mem_append.mp hv with hv | hv
            · rw [mem_ite_singleton hv]; rfl
            · rw [mem_ite_singleton hv]; rfl
          · rw [mem_ite_singleton hv]; rfl
        · rw [mem_ite_singleton hv]; rfl

/-- Every violation `ValidateHierarchy` emits while processing period `q` is
about `q`. -/
theorem checkPeriod_subject (st : PeriodStore) (q : Period) :
    ∀ v ∈ checkPeriod st q, v.subject = q.id := by
  intro v hv
  unfold checkPeriod at hv
  split at hv
  · cases hv
  · split at hv
    · exact checkMonth_subject st q v hv
    · exact checkQuarter_subject st q v hv

/-- A Gregorian calendar Year period for 2026 (correct stamp). -/
def gregYear2026 : Period :=
  { id := "2026"
    name := "2026"
    calendar := CalendarGregorian
    granularity := CalendarYearPeriod
    parentPeriodID := none
    childPeriodIDs := []
    startDate := mkMonthStart 2026 1
    endDate := mkMonthStart 2027 1 - 1 }

/-- A fiscal Year period that (incorrectly) declares the Gregorian year 2026
as its parent — a calendar-mismatched parent link on a Year period. -/
def fyWithGregParent : Period :=
  { id := "FY2026"
    name := "Fiscal Year 2026"
    calendar := CalendarFiscal
    granularity := CalendarYearPeriod
    parentPeriodID := some "2026"
    childPeriodIDs := []
    startDate := mkMonthStart 2026 4
    endDate := mkMonthStart 2027 4 - 1 }

/-- A store holding both years, with the fiscal year's calendar-mismatched
parent link in place. -/
def mismatchedYearStore : PeriodStore :=
  { entries := [gregYear2026, fyWithGregParent]
    months := []
    quarters := []
    years := [gregYear2026, fyWithGregParent] }

/-- C7 counterexample: `fyWithGregParent` is a period of the store whose
declared parent exists and has a different calendar, yet `ValidateHierarchy`
reports no violation at all (Year periods are skipped before any parent
check), so it does not report "exactly one calendar-isolation violation" for
that period as the claim states. -/
theorem C7_counterexample_year_parent_skipped :
    fyWithGregParent ∈ mismatchedYearStore.years ∧
    fyWithGregParent.parentPeriodID = some "2026" ∧
    mismatchedYearStore.findByID "2026" = some gregYear2026 ∧
    gregYear2026.calendar ≠ fyWithGregParent.calendar ∧
    validateHierarchy mismatchedYearStore = [] := by
  refine ⟨by decide, by decide, by decide, by decide, by decide⟩

/-- C7 amended: Year periods are exempt — `ValidateHierarchy` skips them
before any parent check, so a calendar-mismatched parent on a Year goes
unreported. For every non-Year period of the store whose declared parent
exists with a different calendar (the calendars being the two enum values),
`ValidateHierarchy` reports exactly one calendar-isolation violation naming
that period; and every correctly linked period — existing distinct parent of
the same calendar (Gregorian for Months), strictly coarser parent granularity,
parent date range containing the child's — receives no violation at all. -/
theorem C7_hierarchy_calendar_isolation (st : PeriodStore)
    (hnd : ((st.years ++ st.quarters ++ st.months).map Period.id).Nodup) :
    (∀ p pid parent, p ∈ st.years ++ st.quarters ++ st.months →
      p.granularity ≠ CalendarYearPeriod →
      p.parentPeriodID = some pid → st.findByID pid = some parent →
      (p.calendar = CalendarGregorian ∨ p.calendar = CalendarFiscal) →
      (parent.calendar = CalendarGregorian ∨ parent.calendar = CalendarFiscal) →
      parent.calendar ≠ p.calendar →
      (validateHierarchy st).countP (isCalendarIsolationViolation p.id) = 1) ∧
    (∀ p pid parent, p ∈ st.years ++ st.quarters ++ st.months →
      p.parentPeriodID = some pid → st.findByID pid = some parent →
      parent.calendar = p.calendar →
      (p.granularity = MonthlyPeriod → p.calendar = CalendarGregorian) →
      parent.id ≠ p.id →
      p.granularityRank < parent.granularityRank →
      parent.startDate ≤ p.startDate → p.endDate ≤ parent.endDate →
      (validateHierarchy st).countP (namesSubject p.id) = 0) := by
  have hndL : (st.years ++ st.quarters ++ st.months).Nodup :=
    List.Nodup.of_map Period.id hnd
  constructor
  · intro p pid parent hp hgr hpar hfind hpc hparc hne
    rw [validateHierarchy,
      countP_flatMap_single (checkPeriod st) (isCalendarIsolationViolation p.id)
        p _ hp hndL ?_]
    · have hgr' : (p.granularity == CalendarYearPeriod) = false := by
        simpa using hgr
      rw [checkPeriod, hgr']
      by_cases hm : p.granularity = MonthlyPeriod
      · have hm' : (p.granularity == MonthlyPeriod) = true := by simpa using hm
        rw [if_neg (by simp), if_pos (by simp [hm'])]
        rcases hpc with hpc | hpc <;> rcases hparc with hparc | hparc
        · exact absurd (hparc.trans hpc.symm) hne
        · rw [checkMonth, hpar]
          dsimp only
          rw [hfind]
          simp [hpc, hparc, CalendarGregorian, CalendarFiscal,
            List.countP_append, countP_if_singleton, isCalendarIsolationViolation]
        · rw [checkMonth, hpar]
          dsimp only
          rw [hfind]
          simp [hpc, hparc, CalendarGregorian, CalendarFiscal,
            List.countP_append, countP_if_singleton, isCalendarIsolationViolation]
        · exact absurd (hparc.trans hpc.symm) hne
      · have hm' : (p.granularity == MonthlyPeriod) = false := by simpa using hm
        rw [if_neg (by simp), if_neg (by simp [hm']), checkQuarter, hpar]
        dsimp only
        rw [hfind]
        dsimp only
        rw [if_pos hne]
        simp [isCalendarIsolationViolation]
    · intro q hq hqp
      apply List.countP_eq_zero.mpr
      intro v hv hvp
      have h1 : v.subject = q.id := checkPeriod_subject st q v hv
      have h2 : v.subject = p.id := isCalendarIsolationViolation_subject hvp
      exact hqp (List.inj_on_of_nodup_map hnd hq hp (h1.symm.trans h2))
  · intro p pid parent hp hpar hfind hcaleq hmcal hnself hrank hs he
    have hchk : checkPeriod st p = [] := by
      rw [checkPeriod]
      by_cases hy : p.granularity = CalendarYearPeriod
      · rw [if_pos (by simpa using hy)]
      · rw [if_neg (by simpa using hy)]
        by_cases hm : p.granularity = MonthlyPeriod
        · rw [if_pos (by simpa using hm), checkMonth, hpar]
          dsimp only
          rw [hfind]
          have hpc := hmcal hm
          simp [hpc, hcaleq.trans hpc, not_lt.mpr hs, not_lt.mpr he,
            not_le.mpr hrank]
        · rw [if_neg (by simpa using hm), checkQuarter, hpar]
          dsimp only
          rw [hfind]
          dsimp only
          rw [if_neg (by simp [hcaleq])]
          have hnself' : (parent.id == p.id) = false := by simpa using hnself
          simp [hnself', not_lt.mpr hs, not_lt.mpr he, not_le.mpr hrank]
    rw [validateHierarchy,
      countP_flatMap_single (checkPeriod st) (namesSubject p.id) p _ hp hndL ?_,
      hchk]
    · rfl
    · intro q hq hqp
      apply List.countP_eq_zero.mpr
      intro v hv hvp
      have h1 : v.subject = q.id := checkPeriod_subject st q v hv
      have h2 : v.subject = p.id := by simpa [namesSubject] using hvp
      exact hqp (List.inj_on_of_nodup_map hnd hq hp (h1.symm.trans h2))

/-- A Gregorian Quarter that (incorrectly) declares the fiscal year FY2026 as
its parent. -/
def badQuarter : Period :=
  { id := "2026-Q1"
    name := "Q1 2026"
    calendar := CalendarGregorian
    granularity := QuarterlyPeriod
    parentPeriodID := some "FY2026"
    childPeriodIDs := []
    startDate := mkMonthStart 2026 1
    endDate := mkMonthStart 2026 4 - 1 }

/-- A correctly linked Gregorian Quarter (parent `"2026"`, same calendar,
coarser parent, contained dates). -/
def goodQuarter : Period :=
  { id := "2026-Q2"
    name := "Q2 2026"
    calendar := CalendarGregorian
    granularity := QuarterlyPeriod
    parentPeriodID := some "2026"
    childPeriodIDs := []
    startDate := mkMonthStart 2026 4
    endDate := mkMonthStart 2026 7 - 1 }

/-- Store with one calendar-mismatched quarter and one correctly linked one. -/
def c7WitnessStore : PeriodStore :=
  { entries := [gregYear2026, fy2026Overlay, badQuarter, goodQuarter]
    months := []
    quarters := [badQuarter, goodQuarter]
    years := [gregYear2026, fy2026Overlay] }

/-- Witness for C7 amended: the mismatched quarter gets exactly one
calendar-isolation violation; the correctly linked quarter gets none. -/
theorem C7_hierarchy_witness :
    (validateHierarchy c7WitnessStore).countP
      (isCalendarIsolationViolation "2026-Q1") = 1 ∧
    (validateHierarchy c7WitnessStore).countP (namesSubject "2026-Q2") = 0 :=
  ⟨(C7_hierarchy_calendar_isolation c7WitnessStore (by decide)).1
      badQuarter "FY2026" fy2026Overlay (by decide) (by decide) (by decide)
      (by decide) (Or.inl (by decide)) (Or.inr (by decide)) (by decide),
   (C7_hierarchy_calendar_isolation c7WitnessStore (by decide)).2
      goodQuarter "2026" gregYear2026 (by decide) (by decide) (by decide)
      (by decide) (by decide) (by decide) (by decide) (by decide) (by decide)⟩

/-! ### Calendar arithmetic for the generation-completeness claim -/

theorem febDays_cases (y : Int) : febDays y = 28 ∨ febDays y = 29 := by
  unfold febDays
  split <;> simp

theorem daysBeforeYear_succ_leap {y : Int} (h : isLeap y = true) :
    daysBeforeYear (y + 1) = daysBeforeYear y + 366 := by
  simp only [isLeap, Bool.or_eq_true, Bool.and_eq_true, beq_iff_eq,
    Bool.not_eq_true', beq_eq_false_iff_ne] at h
  unfold daysBeforeYear
  rcases h with ⟨h4, h100⟩ | h400 <;> omega

theorem daysBeforeYear_succ_nonleap {y : Int} (h : isLeap y = false) :
    daysBeforeYear (y + 1) = daysBeforeYear y + 365 := by
  simp only [isLeap, Bool.or_eq_false_iff, Bool.and_eq_false_iff,
    beq_eq_false_iff_ne, Bool.not_eq_false', beq_iff_eq] at h
  unfold daysBeforeYear
  rcases h with ⟨h4 | h100, h400⟩ <;> omega

theorem daysBeforeYear_step (y : Int) :
    daysBeforeYear y + 365 ≤ daysBeforeYear (y + 1) ∧
    daysBeforeYear (y + 1) ≤ daysBeforeYear y + 366 := by
  cases h : isLeap y
  · rw [daysBeforeYear_succ_nonleap h]; omega
  · rw [daysBeforeYear_succ_leap h]; omega

/-- `daysBeforeYear` grows by at least 365 per year. -/
theorem daysBeforeYear_mono_lt {y z : Int} (h : y < z) :
    daysBeforeYear y + 365 ≤ daysBeforeYear z := by
  have h' : y + 1 ≤ z := h
  exact @Int.le_induction (fun z => daysBeforeYear y + 365 ≤ daysBeforeYear z)
    (y + 1) ((daysBeforeYear_step y).1)
    (fun n _ ih => by have := (daysBeforeYear_step n).1; omega) z h

theorem daysBeforeYear_mono_le {y z : Int} (h : y ≤ z) :
    daysBeforeYear y ≤ daysBeforeYear z := by
  rcases eq_or_lt_of_le h with rfl | h
  · exact le_refl _
  · have := daysBeforeYear_mono_lt h
    omega

theorem monthStartNs_one (y : Int) :
    monthStartNs y 1 = daysBeforeYear y * nsPerDay := by
  unfold monthStartNs daysBeforeMonth
  norm_num

theorem mkMonthStart_thirteen (y : Int) :
    mkMonthStart y 13 = mkMonthStart (y + 1) 1 := by
  unfold mkMonthStart
  norm_num

/-- Bounds for every period of one generated year block: it starts no earlier
than Jan 1 of its year, is a nonempty interval, and ends no later than the
last nanosecond of its year. -/
theorem yearBlock_bounds (y : Int) : ∀ p ∈ yearBlock y,
    monthStartNs y 1 ≤ p.startDate ∧ p.startDate ≤ p.endDate ∧
    p.endDate ≤ monthStartNs (y + 1) 1 - 1 := by
  have hf := febDays_cases y
  have hstep := daysBeforeYear_step y
  intro p hp
  simp only [yearBlock, quarterBlock, List.range_succ, List.range_zero,
    List.flatMap_cons, List.flatMap_nil, List.nil_append, List.cons_append,
    List.append_nil, List.mem_cons, List.not_mem_nil, or_false] at hp
  rcases hp with rfl | rfl | rfl | rfl | rfl | rfl | rfl | rfl | rfl | rfl |
    rfl | rfl | rfl | rfl | rfl | rfl | rfl <;>
    · simp only [yearPeriodOf, monthPeriodOf, quarterPeriodOf, mkMonthStart,
        monthStartNs, daysBeforeMonth, nsPerDay]
      norm_num
      omega

/-- Date-containment in calendar year `y` (start on or after Jan 1 of `y`, end
on or before the last nanosecond of `y`). -/
def inYearRangeB (y : Int) (p : Period) : Bool :=
  decide (monthStartNs y 1 ≤ p.startDate) &&
  decide (p.endDate ≤ monthStartNs (y + 1) 1 - 1)

/-- "Is a period of granularity `g` belonging to calendar year `y`" (by date
containment). -/
def isOfYearB (g : String) (y : Int) (p : Period) : Bool :=
  p.granularity == g && inYearRangeB y p

/-- The 12 Month periods `GeneratePeriods` emits for year `y`, in
chronological order. -/
def monthsOfYear (y : Int) : List Period :=
  [monthPeriodOf y 1 1, monthPeriodOf y 1 2, monthPeriodOf y 1 3,
   monthPeriodOf y 2 4, monthPeriodOf y 2 5, monthPeriodOf y 2 6,
   monthPeriodOf y 3 7, monthPeriodOf y 3 8, monthPeriodOf y 3 9,
   monthPeriodOf y 4 10, monthPeriodOf y 4 11, monthPeriodOf y 4 12]

/-- Adjacent periods in the list touch exactly: each one starts 1ns after the
previous one ends (no gap, no overlap). -/
def contiguousB : List Period → Bool
  | p :: q :: rest => (q.startDate == p.endDate + 1) && contiguousB (q :: rest)
  | _ => true

theorem yearBlock_inRange_self (y : Int) :
    ∀ p ∈ yearBlock y, inYearRangeB y p = true := by
  intro p hp
  obtain ⟨b1, b2, b3⟩ := yearBlock_bounds y p hp
  simp [inYearRangeB, b1, b3]

theorem yearBlock_inRange_other {y y' : Int} (hne : y' ≠ y) :
    ∀ p ∈ yearBlock y', inYearRangeB y p = false := by
  intro p hp
  obtain ⟨b1, b2, b3⟩ := yearBlock_bounds y' p hp
  simp only [monthStartNs_one, nsPerDay] at b1 b3
  rcases lt_or_gt_of_ne hne with hlt | hgt
  · have hm : daysBeforeYear (y' + 1) ≤ daysBeforeYear y :=
      daysBeforeYear_mono_le (by omega)
    have hA : ¬ (monthStartNs y 1 ≤ p.startDate) := by
      simp only [monthStartNs_one, nsPerDay]
      omega
    simp [inYearRangeB, hA]
  · have hm : daysBeforeYear (y + 1) ≤ daysBeforeYear y' :=
      daysBeforeYear_mono_le (by omega)
    have hB : ¬ (p.endDate ≤ monthStartNs (y + 1) 1 - 1) := by
      simp only [monthStartNs_one, nsPerDay]
      omega
    simp [inYearRangeB, hB]

theorem filter_flatMap_nil {α β : Type} (f : α → List β) (pr : β → Bool) :
    ∀ (L : List α), (∀ b ∈ L, (f b).filter pr = []) → (L.flatMap f).filter pr = []
  | [], _ => rfl
  | x :: L, h => by
    rw [List.flatMap_cons, List.filter_append, h x (List.mem_cons_self x L),
      filter_flatMap_nil f pr L (fun b hb => h b (List.mem_cons_of_mem x hb)),
      List.append_nil]

/-- Filtering a `flatMap` when only one element of the list can contribute. -/
theorem filter_flatMap_single {α β : Type} (f : α → List β) (pr : β → Bool)
    (a : α) : ∀ (L : List α), a ∈ L → L.Nodup →
      (∀ b ∈ L, b ≠ a → (f b).filter pr = []) →
      (L.flatMap f).filter pr = (f a).filter pr
  | [], ha, _, _ => by cases ha
  | x :: L, ha, hnd, hz => by
    rw [List.flatMap_cons, List.filter_append]
    rcases List.mem_cons.mp ha with rfl | ha'
    · rw [filter_flatMap_nil f pr L
        (fun b hb => hz b (List.mem_cons_of_mem a hb)
          (fun hba => (List.nodup_cons.mp hnd).1 (hba ▸ hb))),
        List.append_nil]
    · have hxa : x ≠ a := by
        rintro rfl
        exact (List.nodup_cons.mp hnd).1 ha'
      rw [hz x (List.mem_cons_self x L) hxa,
        filter_flatMap_single f pr a L ha' (List.nodup_cons.mp hnd).2
          (fun b hb hba => hz b (List.mem_cons_of_mem x hb) hba),
        List.nil_append]

theorem mem_intRange (y : Int) : ∀ (n : Nat) (s : Int),
    y ∈ intRange s n ↔ s ≤ y ∧ y < s + n
  | 0, s => by simp [intRange]
  | n + 1, s => by
    simp [intRange, mem_intRange y n (s + 1)]
    omega

theorem nodup_intRange : ∀ (n : Nat) (s : Int), (intRange s n).Nodup
  | 0, _ => by simp [intRange]
  | n + 1, s => by
    simp only [intRange, List.nodup_cons, nodup_intRange n (s + 1), and_true,
      mem_intRange]
    omega

/-- Counting periods of year `y` in `GeneratePeriods(sy, ey)` reduces to
counting them in the single block generated for `y`. -/
theorem countP_generate (sy ey y : Int) (h1 : sy ≤ ey) (h2 : sy ≤ y)
    (h3 : y ≤ ey) (g : String) :
    (generatePeriods sy ey).countP (isOfYearB g y) =
      (yearBlock y).countP (isOfYearB g y) := by
  unfold generatePeriods
  rw [if_neg (by omega)]
  apply countP_flatMap_single yearBlock (isOfYearB g y) y
  · rw [mem_intRange]
    omega
  · exact nodup_intRange _ _
  · intro y' _ hne
    apply List.countP_eq_zero.mpr
    intro p hp
    simp [isOfYearB, yearBlock_inRange_other hne p hp]

/-- Filtering the periods of year `y` out of `GeneratePeriods(sy, ey)` reduces
to filtering the single block generated for `y`. -/
theorem filter_generate (sy ey y : Int) (h1 : sy ≤ ey) (h2 : sy ≤ y)
    (h3 : y ≤ ey) (g : String) :
    (generatePeriods sy ey).filter (isOfYearB g y) =
      (yearBlock y).filter (isOfYearB g y) := by
  unfold generatePeriods
  rw [if_neg (by omega)]
  apply filter_flatMap_single yearBlock (isOfYearB g y) y
  · rw [mem_intRange]
    omega
  · exact nodup_intRange _ _
  · intro y' _ hne
    rw [List.filter_eq_nil_iff]
    intro p hp
    simp [isOfYearB, yearBlock_inRange_other hne p hp]

theorem isOfYearB_on_block (g : String) (y : Int) :
    ∀ p ∈ yearBlock y, isOfYearB g y p = (p.granularity == g) := by
  intro p hp
  simp [isOfYearB, yearBlock_inRange_self y p hp]

/-- C1: for every `startYear ≤ endYear` and every `y` in range,
`GeneratePeriods(startYear, endYear)` produces exactly 1 Year, 4 Quarter and
12 Month periods belonging to `y` (by date containment); the Year spans
Jan 1 00:00:00 UTC through Dec 31 23:59:59.999999999 UTC of `y`; each Quarter
spans exactly 3 calendar months starting at a quarter boundary (month
1 + 3(q-1) for some q in 1..4); and the 12 Month ranges partition the Year's
range exactly: the months of `y` are nonempty intervals, each starts 1ns after
the previous one ends, the first starts at the Year's start and the last ends
at the Year's end. -/
theorem C1_generation_completeness (startYear endYear y : Int)
    (h1 : startYear ≤ endYear) (h2 : startYear ≤ y) (h3 : y ≤ endYear) :
    (generatePeriods startYear endYear).countP (isOfYearB CalendarYearPeriod y) = 1 ∧
    (generatePeriods startYear endYear).countP (isOfYearB QuarterlyPeriod y) = 4 ∧
    (generatePeriods startYear endYear).countP (isOfYearB MonthlyPeriod y) = 12 ∧
    (∀ p ∈ generatePeriods startYear endYear,
      isOfYearB CalendarYearPeriod y p = true →
      p.startDate = mkMonthStart y 1 ∧ p.endDate = mkMonthStart (y + 1) 1 - 1) ∧
    (∀ p ∈ generatePeriods startYear endYear,
      isOfYearB QuarterlyPeriod y p = true →
      ∃ q : Int, 1 ≤ q ∧ q ≤ 4 ∧
        p.startDate = mkMonthStart y (1 + (q - 1) * 3) ∧
        p.endDate = mkMonthStart y (1 + (q - 1) * 3 + 3) - 1) ∧
    (generatePeriods startYear endYear).filter (isOfYearB MonthlyPeriod y) =
      monthsOfYear y ∧
    (monthsOfYear y).length = 12 ∧
    contiguousB (monthsOfYear y) = true ∧
    (monthsOfYear y).all (fun p => decide (p.startDate ≤ p.endDate)) = true ∧
    ((monthsOfYear y).head?).map Period.startDate = some (mkMonthStart y 1) ∧
    ((monthsOfYear y).getLast?).map Period.endDate =
      some (mkMonthStart (y + 1) 1 - 1) := by
  have hf := febDays_cases y
  refine ⟨?_, ?_, ?_, ?_, ?_, ?_, rfl, ?_, ?_, ?_, ?_⟩
  · rw [countP_generate startYear endYear y h1 h2 h3,
      List.countP_congr (fun x hx => by rw [isOfYearB_on_block CalendarYearPeriod y x hx])]
    rfl
  · rw [countP_generate startYear endYear y h1 h2 h3,
      List.countP_congr (fun x hx => by rw [isOfYearB_on_block QuarterlyPeriod y x hx])]
    rfl
  · rw [countP_generate startYear endYear y h1 h2 h3,
      List.countP_congr (fun x hx => by rw [isOfYearB_on_block MonthlyPeriod y x hx])]
    rfl
  · intro p hp hpred
    unfold generatePeriods at hp
    rw [if_neg (by omega)] at hp
    obtain ⟨y', _, hpb⟩ := List.mem_flatMap.mp hp
    by_cases hne : y' = y
    · subst hne
      have hgr : (p.granularity == CalendarYearPeriod) = true := by
        rw [isOfYearB_on_block CalendarYearPeriod y' p hpb] at hpred
        exact hpred
      simp only [yearBlock, quarterBlock, List.range_succ, List.range_zero,
        List.flatMap_cons, List.flatMap_nil, List.nil_append, List.cons_append,
        List.append_nil, List.mem_cons, List.not_mem_nil, or_false] at hpb
      rcases hpb with rfl | rfl | rfl | rfl | rfl | rfl | rfl | rfl | rfl |
        rfl | rfl | rfl | rfl | rfl | rfl | rfl | rfl <;>
        first
        | exact ⟨rfl, rfl⟩
        | exact Bool.noConfusion hgr
    · rw [isOfYearB, yearBlock_inRange_other hne p hpb, Bool.and_false] at hpred
      cases hpred
  · intro p hp hpred
    unfold generatePeriods at hp
    rw [if_neg (by omega)] at hp
    obtain ⟨y', _, hpb⟩ := List.mem_flatMap.mp hp
    by_cases hne : y' = y
    · subst hne
      have hgr : (p.granularity == QuarterlyPeriod) = true := by
        rw [isOfYearB_on_block QuarterlyPeriod y' p hpb] at hpred
        exact hpred
      simp only [yearBlock, quarterBlock, List.range_succ, List.range_zero,
        List.flatMap_cons, List.flatMap_nil, List.nil_append, List.cons_append,
        List.append_nil, List.mem_cons, List.not_mem_nil, or_false] at hpb
      rcases hpb with rfl | rfl | rfl | rfl | rfl | rfl | rfl | rfl | rfl |
        rfl | rfl | rfl | rfl | rfl | rfl | rfl | rfl <;>
        first
        | exact Bool.noConfusion hgr
        | exact ⟨1, by norm_num, by norm_num, rfl, rfl⟩
        | exact ⟨2, by norm_num, by norm_num, rfl, rfl⟩
        | exact ⟨3, by norm_num, by norm_num, rfl, rfl⟩
        | exact ⟨4, by norm_num, by norm_num, rfl, rfl⟩
    · rw [isOfYearB, yearBlock_inRange_other hne p hpb, Bool.and_false] at hpred
      cases hpred
  · rw [filter_generate startYear endYear y h1 h2 h3,
      List.filter_congr (fun x hx => by rw [isOfYearB_on_block MonthlyPeriod y x hx])]
    rfl
  · simp only [contiguousB, monthsOfYear, monthPeriodOf, Bool.and_eq_true,
      beq_iff_eq]
    norm_num
  · have hstep := daysBeforeYear_step y
    simp only [monthsOfYear, monthPeriodOf, List.all_cons, List.all_nil,
      Bool.and_eq_true, decide_eq_true_eq, Bool.and_true]
    simp only [mkMonthStart, monthStartNs, daysBeforeMonth, nsPerDay]
    norm_num
    rcases hf with hf | hf <;> simp [hf] <;> omega
  · rfl
  · simp only [monthsOfYear, monthPeriodOf]
    norm_num [mkMonthStart_thirteen]

/-- Witness for C1: the counts and the month partition at
`GeneratePeriods(2026, 2026)` for year 2026. -/
theorem C1_generation_completeness_witness :
    (generatePeriods 2026 2026).countP (isOfYearB CalendarYearPeriod 2026) = 1 ∧
    (generatePeriods 2026 2026).countP (isOfYearB QuarterlyPeriod 2026) = 4 ∧
    (generatePeriods 2026 2026).countP (isOfYearB MonthlyPeriod 2026) = 12 ∧
    (generatePeriods 2026 2026).filter (isOfYearB MonthlyPeriod 2026) =
      monthsOfYear 2026 := by
  obtain ⟨a, b, c, _, _, f, _⟩ :=
    C1_generation_completeness 2026 2026 2026 (by decide) (by decide) (by decide)
  exact ⟨a, b, c, f⟩

end CsoBook
